import Mathlib

/-!
Verification development for the speech-assistant relay
(`src/speech_assistant/main.py`), its transcript logger
(`src/speech_assistant/simple_call_logger.py`) and the moving-request
store (`src/speech_assistant/moving_agent.py`).

The per-connection mutable state of the websocket handler and the
event handling of the upstream-to-client pump (`send_to_client`) are
embedded as a pure step function on an explicit state record.
Wall-clock and monotonic times are modelled as rationals (seconds for
the monotonic clock, integer milliseconds for the media timestamps),
and the network is modelled by explicit output messages and by oracle
arguments carrying the outcome of an HTTP request.
-/

namespace SpeechAssistant

/-- Per-connection mutable state of `handle_websocket` in `main.py`
(the variables shared by the two pump closures; fields that the
handlers in `send_to_client` read or write). -/
structure ConnState where
  latest_media_timestamp : Int
  last_assistant_item : Option String
  response_start_timestamp : Option Int
  assistant_speaking : Bool
  last_tts_sent_at : ℚ
  client_recording : Bool
  current_response_id : Option String
deriving DecidableEq, Repr

/-- The upstream events of `send_to_client` that touch the connection
state or produce output.  `now` is the value `time.monotonic()` would
return when the event is handled, in seconds. -/
inductive UpEvent where
  | responseDone
  | audioDelta (now : ℚ) (delta : String) (itemId : Option String)
  | speechStarted (now : ℚ)
  | audioTranscriptDone (transcript : String)
  | inputTranscriptionCompleted (transcript : String)
deriving DecidableEq, Repr

/-- Messages the pump emits: to the browser client, to the upstream
session, or to the transcript logger.  The upstream control vocabulary
also has a truncate-at-offset message (`conversation.item.truncate`);
it is listed here so that its absence from the pump output can be
stated. -/
inductive OutMsg where
  | audioToClient (payload : String)
  | clearToClient
  | cancelToUpstream
  | truncateToUpstream (itemId : String) (audioEndMs : Int)
  | logEntry (speaker : String) (text : String)
deriving DecidableEq, Repr

/-- Whether a message is the truncate-at-offset control message. -/
def OutMsg.isTruncate : OutMsg → Bool
  | .truncateToUpstream _ _ => true
  | _ => false

/-- Whether a message is the cancel-response control message. -/
def OutMsg.isCancel : OutMsg → Bool
  | .cancelToUpstream => true
  | _ => false

/-- `echo_window = 0.35` seconds in the speech-started handler. -/
def echoWindow : ℚ := 35 / 100

/-- Python truthiness of `response.get('item_id')`: `None` and the
empty string are falsy. -/
def truthy : Option String → Bool
  | some t => !t.isEmpty
  | none => false

/-- The guard of the interruption branch:
`client_recording and assistant_speaking and (now - last_tts_sent_at) > echo_window`. -/
def interruptCond (s : ConnState) (now : ℚ) : Bool :=
  s.client_recording && s.assistant_speaking &&
    decide (now - s.last_tts_sent_at > echoWindow)

/-- One iteration of the event loop of `send_to_client` in `main.py`:
the state update and the messages sent, per event type.
`response.done` is in `LOG_EVENT_TYPES` (config.py), so its branch
runs; the transcript events only log when the stripped text is
non-empty. -/
def step (s : ConnState) (e : UpEvent) : ConnState × List OutMsg :=
  match e with
  | .responseDone =>
      ({ s with response_start_timestamp := none, assistant_speaking := false }, [])
  | .audioDelta now delta itemId =>
      let s1 := { s with last_tts_sent_at := now }
      let s2 :=
        if s1.response_start_timestamp = none then
          { s1 with response_start_timestamp := some s1.latest_media_timestamp,
                    assistant_speaking := true }
        else s1
      let s3 :=
        if truthy itemId then
          { s2 with last_assistant_item := itemId, current_response_id := itemId }
        else s2
      (s3, [.audioToClient delta])
  | .speechStarted now =>
      if interruptCond s now then
        ({ s with last_assistant_item := none, response_start_timestamp := none,
                  assistant_speaking := false },
         [.cancelToUpstream, .clearToClient])
      else (s, [])
  | .audioTranscriptDone t =>
      (s, if t.trim ≠ "" then [.logEntry "assistant" t] else [])
  | .inputTranscriptionCompleted t =>
      (s, if t.trim ≠ "" then [.logEntry "user" t] else [])

/-- Folding `step` over a list of events, keeping only the state. -/
def runState (s : ConnState) (es : List UpEvent) : ConnState :=
  es.foldl (fun s e => (step s e).1) s

/-- `IDLE`: no assistant audio in flight. -/
def isIdle (s : ConnState) : Prop :=
  s.assistant_speaking = false ∧ s.response_start_timestamp = none

instance (s : ConnState) : Decidable (isIdle s) := by
  unfold isIdle; infer_instance

/-- An audio-delta event from its (monotonic time, payload, item id)
description. -/
def mkDelta (p : ℚ × String × Option String) : UpEvent :=
  .audioDelta p.1 p.2.1 p.2.2

/-- A concrete in-flight state: the assistant began responding at
client media timestamp 1000 ms, the current media timestamp is
1450 ms, an assistant item id is known, and the last TTS chunk was
forwarded at monotonic time 0. -/
def sampleResponding : ConnState :=
  { latest_media_timestamp := 1450
    last_assistant_item := some "item1"
    response_start_timestamp := some 1000
    assistant_speaking := true
    last_tts_sent_at := 0
    client_recording := true
    current_response_id := some "item1" }

/-- The state after the interruption branch of the speech-started
handler: item id, response start timestamp and speaking flag all
cleared. -/
def interruptedState (s : ConnState) : ConnState :=
  { s with last_assistant_item := none, response_start_timestamp := none,
           assistant_speaking := false }

/-- A concrete idle state (no assistant audio in flight). -/
def sampleIdle : ConnState :=
  { latest_media_timestamp := 0
    last_assistant_item := none
    response_start_timestamp := none
    assistant_speaking := false
    last_tts_sent_at := 0
    client_recording := true
    current_response_id := none }

/-! ## Transcript logger (`simple_call_logger.py`) -/

/-- One transcript entry as built in `add_transcript_entry`. -/
structure TranscriptEntry where
  speaker : String
  text : String
  timestamp : String
deriving DecidableEq, Repr

/-- The fixed-schema structured extraction of
`_extract_structured_data`. -/
structure StructuredData where
  name : String
  purpose : String
  where_from : String
  where_to : String
  lift : String
  how_many_rooms : String
  extra_info : String
deriving DecidableEq, Repr

/-- The all-empty-fields placeholder returned by
`_extract_structured_data` for empty transcripts and on every failure
path. -/
def emptyStructured : StructuredData :=
  { name := "", purpose := "", where_from := "", where_to := "",
    lift := "", how_many_rooms := "", extra_info := "" }

/-- One call record of `SimpleCallLogger.active_calls` (the `call_data`
dictionary). -/
structure CallData where
  id : String
  start_time : String
  transcript : List TranscriptEntry
  status : String
  end_time : Option String := none
  duration_seconds : Option ℚ := none
  summary : Option String := none
  structured_data : Option StructuredData := none
deriving DecidableEq, Repr

/-- The logger state: the storage directory and the `active_calls`
dictionary, modelled as an association list with unique keys (Python
dict: lookup finds the key, `del` removes it). -/
structure SimpleCallLogger where
  storage_dir : String
  active_calls : List (String × CallData)
deriving DecidableEq, Repr

/-- Dictionary lookup on the association list. -/
def findCall (id : String) : List (String × CallData) → Option CallData
  | [] => none
  | (k, v) :: rest => if k = id then some v else findCall id rest

/-- Replace the record stored under a key (in-place mutation of the
dict entry). -/
def updateCall (id : String) (f : CallData → CallData) :
    List (String × CallData) → List (String × CallData)
  | [] => []
  | (k, v) :: rest =>
      if k = id then (k, f v) :: updateCall id f rest
      else (k, v) :: updateCall id f rest

/-- `del self.active_calls[call_id]` (keys are unique, so filtering
the key out removes exactly that entry). -/
def eraseCall (id : String) (l : List (String × CallData)) :
    List (String × CallData) :=
  l.filter (fun p => p.1 ≠ id)

/-- One append to a file: the path and the text appended. -/
structure FileWrite where
  path : String
  content : String
deriving DecidableEq, Repr

/-- `os.path.join(self.storage_dir, f"{call_id}_transcript.txt")`. -/
def transcriptFile (dir id : String) : String :=
  dir ++ "/" ++ id ++ "_transcript.txt"

/-- Python `speaker.upper()` (ASCII case mapping; the speakers here
are "user" and "assistant"). -/
def pyUpper (s : String) : String :=
  String.mk (s.data.map Char.toUpper)

/-- The line appended to the transcript file for one entry:
`f"[{timestamp}] {speaker.upper()}: {text}\n"`. -/
def mkLine (timestamp speaker text : String) : String :=
  "[" ++ timestamp ++ "] " ++ pyUpper speaker ++ ": " ++ text ++ "\n"

/-- `SimpleCallLogger.add_transcript_entry`: unknown call id is a
no-op apart from a logged warning (the returned Bool); a known id
appends one entry in memory and one line to the transcript file.
`now` is the ISO timestamp `datetime.now().isoformat()` would give. -/
def addTranscriptEntry (L : SimpleCallLogger) (call_id speaker text now : String) :
    SimpleCallLogger × List FileWrite × Bool :=
  match findCall call_id L.active_calls with
  | none => (L, [], true)
  | some _ =>
      let entry : TranscriptEntry := { speaker := speaker, text := text, timestamp := now }
      let ac := updateCall call_id
        (fun c => { c with transcript := c.transcript ++ [entry] }) L.active_calls
      let w : FileWrite :=
        { path := transcriptFile L.storage_dir call_id, content := mkLine now speaker text }
      ({ L with active_calls := ac }, [w], false)

/-- The transcript formatting shared by `_generate_summary` and
`_extract_structured_data`: one `Customer:`/`Eva:` line per entry. -/
def formatConversation (tr : List TranscriptEntry) : String :=
  tr.foldl
    (fun acc e =>
      acc ++ (if e.speaker = "user" then "Customer" else "Eva") ++ ": " ++ e.text ++ "\n")
    ""

/-- A text-completion request issued to the summarization service,
carrying the formatted conversation embedded in its prompt. -/
inductive Request where
  | summaryReq (conversation : String)
  | extractReq (conversation : String)
deriving DecidableEq, Repr

/-- Outcome of the summary HTTP request (oracle for the network):
HTTP 200 with content, a non-200 status, or a raised exception. -/
inductive SummaryOutcome where
  | ok (text : String)
  | httpError
  | exn
deriving DecidableEq, Repr

/-- Outcome of the structured-extraction HTTP request: HTTP 200 with
parseable JSON (carried already parsed), HTTP 200 whose content fails
to parse as JSON, a non-200 status, or a raised exception. -/
inductive ExtractOutcome where
  | ok (d : StructuredData)
  | parseFailure
  | httpError
  | exn
deriving DecidableEq, Repr

/-- `SimpleCallLogger._generate_summary`: the summary text and the
requests issued.  An empty transcript short-circuits to the
placeholder with no request. -/
def generateSummary (cd : CallData) (o : SummaryOutcome) : String × List Request :=
  if cd.transcript.isEmpty then
    ("No conversation recorded.", [])
  else
    (match o with
     | .ok t => t
     | .httpError => "Summary generation failed."
     | .exn => "Summary generation failed due to technical error.",
     [.summaryReq (formatConversation cd.transcript)])

/-- `SimpleCallLogger._extract_structured_data`: the structured data
and the requests issued.  An empty transcript short-circuits to the
all-empty placeholder with no request; every failure path also yields
the placeholder. -/
def extractStructured (cd : CallData) (o : ExtractOutcome) : StructuredData × List Request :=
  if cd.transcript.isEmpty then
    (emptyStructured, [])
  else
    (match o with
     | .ok d => d
     | .parseFailure => emptyStructured
     | .httpError => emptyStructured
     | .exn => emptyStructured,
     [.extractReq (formatConversation cd.transcript)])

/-- Result of `end_call_and_summarize`: the new logger state, the
returned summary string, the completion requests issued, the
finalized record (written to the complete/structured JSON files), and
the paths of the files written. -/
structure EndCallResult where
  logger : SimpleCallLogger
  summary : String
  requests : List Request
  finalized : Option CallData
  files : List String
deriving DecidableEq, Repr

/-- `SimpleCallLogger.end_call_and_summarize`.  `endTime` is the ISO
timestamp taken at the call, and `dur` the duration in seconds
computed from the parsed start/end wall-clock timestamps (the datetime
arithmetic is ambient input here).  An unknown id returns
"Call not found" and changes nothing; a known id marks the record
completed, summarizes, persists the finalized record and evicts the
id from the active set. -/
def endCallAndSummarize (L : SimpleCallLogger) (call_id endTime : String) (dur : ℚ)
    (so : SummaryOutcome) (eo : ExtractOutcome) : EndCallResult :=
  match findCall call_id L.active_calls with
  | none =>
      { logger := L, summary := "Call not found", requests := [],
        finalized := none, files := [] }
  | some cd =>
      let cd1 := { cd with end_time := some endTime, status := "completed",
                           duration_seconds := some dur }
      let sr := generateSummary cd1 so
      let er := extractStructured cd1 eo
      let cd2 := { cd1 with summary := some sr.1, structured_data := some er.1 }
      { logger := { L with active_calls := eraseCall call_id L.active_calls },
        summary := sr.1,
        requests := sr.2 ++ er.2,
        finalized := some cd2,
        files := [L.storage_dir ++ "/" ++ call_id ++ "_complete.json",
                  L.storage_dir ++ "/" ++ call_id ++ "_structured.json"] }

/-- A sequence of `add_transcript_entry` calls on one call id, each
given as (speaker, text, timestamp); returns the final logger and the
concatenated file appends in order. -/
def runAppends (L : SimpleCallLogger) (call_id : String) :
    List (String × String × String) → SimpleCallLogger × List FileWrite
  | [] => (L, [])
  | (sp, tx, ts) :: rest =>
      let r := addTranscriptEntry L call_id sp tx ts
      let r2 := runAppends r.1 call_id rest
      (r2.1, r.2.1 ++ r2.2)

/-- The entry a (speaker, text, timestamp) triple becomes. -/
def mkEntry (c : String × String × String) : TranscriptEntry :=
  { speaker := c.1, text := c.2.1, timestamp := c.2.2 }

/-- A concrete active call with an empty transcript. -/
def sampleEmptyCall : CallData :=
  { id := "c1", start_time := "2026-01-01T00:00:00", transcript := [], status := "active" }

/-- A concrete logger holding only `sampleEmptyCall`. -/
def sampleLogger : SimpleCallLogger :=
  { storage_dir := "call_log", active_calls := [("c1", sampleEmptyCall)] }

/-! ## Moving-request store (`moving_agent.py`) -/

/-- The `MovingRequest` dataclass. -/
structure MovingRequest where
  id : String
  created_at : String
  client_name : Option String := none
  move_date : Option String := none
  from_location : Option String := none
  to_location : Option String := none
  volume_description : Option String := none
  from_floor : Option String := none
  to_floor : Option String := none
  needs_lift : Option Bool := none
  price_estimate : Option String := none
  requires_on_site_check : Option Bool := none
  status : String := "in_progress"
  notes : Option String := none
deriving DecidableEq, Repr

/-- `MovingAgent.active_requests`, an association list with unique
keys like the logger dictionary. -/
structure MovingAgent where
  active_requests : List (String × MovingRequest)
deriving DecidableEq, Repr

/-- Dictionary lookup on the request store. -/
def findReq (id : String) : List (String × MovingRequest) → Option MovingRequest
  | [] => none
  | (k, v) :: rest => if k = id then some v else findReq id rest

/-- Replace the request stored under a key. -/
def updateReq (id : String) (r : MovingRequest) :
    List (String × MovingRequest) → List (String × MovingRequest)
  | [] => []
  | (k, v) :: rest =>
      if k = id then (k, r) :: updateReq id r rest
      else (k, v) :: updateReq id r rest

/-- Python `s.replace(pat, "")` for a two-character pattern
`⟨a, b⟩`: scan left to right, removing each non-overlapping
occurrence. -/
def remove2 (a b : Char) : List Char → List Char
  | [] => []
  | [c] => [c]
  | c :: d :: rest =>
      if c = a ∧ d = b then remove2 a b rest
      else c :: remove2 a b (d :: rest)

/-- The chain
`.replace("st","").replace("nd","").replace("rd","").replace("th","")`
applied to a floor string in `save_floors`. -/
def stripOrdinals (s : String) : String :=
  String.mk (remove2 't' 'h' (remove2 'r' 'd' (remove2 'n' 'd' (remove2 's' 't' s.data))))

/-- Whether a character is ASCII whitespace accepted by Python
`int()` around the digits. -/
def isPySpace (c : Char) : Bool :=
  c = ' ' ∨ c = '\t' ∨ c = '\n' ∨ c = '\r'

/-- Digit-string value: `some` of the value when the list is a
non-empty run of ASCII digits, else `none`. -/
def digitsVal : List Char → Option Nat
  | [] => none
  | [c] => if c.isDigit then some (c.toNat - '0'.toNat) else none
  | c :: d :: rest =>
      if c.isDigit then
        (digitsVal (d :: rest)).map
          (fun n => (c.toNat - '0'.toNat) * 10 ^ (d :: rest).length + n)
      else none

/-- Python `int(s)` on a decimal string: optional surrounding ASCII
whitespace, an optional sign, then a non-empty digit run.  (Python
also accepts underscores between digits and non-ASCII digits; these
do not occur in the inputs considered here and are modelled as
failures.) -/
def pyToInt : String → Option Int
  | s =>
      let t := (s.data.dropWhile isPySpace).reverse.dropWhile isPySpace |>.reverse
      match t with
      | '-' :: ds => (digitsVal ds).map (fun n => -(n : Int))
      | '+' :: ds => (digitsVal ds).map (fun n => (n : Int))
      | ds => (digitsVal ds).map (fun n => (n : Int))

/-- The `needs_lift` computation of `save_floors`: strip the ordinal
substrings from each floor string, parse both as integers; when both
parse, a lift is needed iff either floor exceeds 1, and any parse
failure means a lift might be needed (`except: needs_lift = True`). -/
def needsLiftCalc (from_floor to_floor : String) : Bool :=
  match pyToInt (stripOrdinals from_floor), pyToInt (stripOrdinals to_floor) with
  | some a, some b => decide (a > 1) || decide (b > 1)
  | _, _ => true

/-- `MovingAgent.save_floors`: unknown id returns `false` and changes
nothing; a known id records both floor strings, computes
`needs_lift`, and returns `true`. -/
def saveFloors (A : MovingAgent) (request_id from_floor to_floor : String) :
    MovingAgent × Bool :=
  match findReq request_id A.active_requests with
  | none => (A, false)
  | some r =>
      let r1 := { r with from_floor := some from_floor, to_floor := some to_floor,
                         needs_lift := some (needsLiftCalc from_floor to_floor) }
      ({ A with active_requests := updateReq request_id r1 A.active_requests }, true)

/-- Whether the character list ends with the two characters `a`,
`b`. -/
def endsWith2 (a b : Char) (s : List Char) : Bool :=
  match s.reverse with
  | d :: c :: _ => c = a ∧ d = b
  | _ => false

/-- Modelled from the spec claim wording for C10 (refinement
comparison only): strip at most one trailing ordinal suffix
"st"/"nd"/"rd"/"th" from each string, then decide `needs_lift` the
same way. -/
def claimStripSuffix (s : String) : String :=
  if endsWith2 's' 't' s.data ∨ endsWith2 'n' 'd' s.data ∨
     endsWith2 'r' 'd' s.data ∨ endsWith2 't' 'h' s.data then
    String.mk (s.data.take (s.data.length - 2))
  else s

/-- Modelled from the spec claim wording for C10 (refinement
comparison only): the `needs_lift` value the claim describes, with
ordinal *suffix* stripping instead of substring removal. -/
def claimNeedsLift (from_floor to_floor : String) : Bool :=
  match pyToInt (claimStripSuffix from_floor), pyToInt (claimStripSuffix to_floor) with
  | some a, some b => decide (a > 1) || decide (b > 1)
  | _, _ => true

/-- A concrete request and store for witnesses. -/
def sampleRequest : MovingRequest :=
  { id := "r1", created_at := "2026-01-01T00:00:00" }

/-- A concrete agent holding only `sampleRequest`. -/
def sampleAgent : MovingAgent :=
  { active_requests := [("r1", sampleRequest)] }

/-! ## Helper lemmas -/

/-- In `sampleResponding`, a speech-started event at monotonic time 1
passes the echo-suppression test. -/
theorem interruptCond_sample : interruptCond sampleResponding 1 = true := by
  simp [interruptCond, sampleResponding, echoWindow]
  norm_num

/-- Looking a key up after deleting it finds nothing. -/
theorem findCall_eraseCall (id : String) (l : List (String × CallData)) :
    findCall id (eraseCall id l) = none := by
  induction l with
  | nil => rfl
  | cons p rest ih =>
      obtain ⟨k, v⟩ := p
      by_cases h : k = id
      · subst h
        simpa [eraseCall, List.filter_cons] using ih
      · simpa [eraseCall, List.filter_cons, h, findCall] using ih

/-- Looking a key up after updating it sees the update. -/
theorem findCall_updateCall_self (id : String) (f : CallData → CallData)
    (l : List (String × CallData)) :
    findCall id (updateCall id f l) = (findCall id l).map f := by
  induction l with
  | nil => rfl
  | cons p rest ih =>
      obtain ⟨k, v⟩ := p
      by_cases h : k = id
      · subst h
        simp [updateCall, findCall, ih]
      · simp [updateCall, findCall, h, ih]

/-- Updating one key leaves lookups of other keys unchanged. -/
theorem findCall_updateCall_ne (j id : String) (f : CallData → CallData)
    (l : List (String × CallData)) (h : j ≠ id) :
    findCall j (updateCall id f l) = findCall j l := by
  induction l with
  | nil => rfl
  | cons p rest ih =>
      obtain ⟨k, v⟩ := p
      by_cases hp : k = id
      · subst hp
        have hkj : k ≠ j := fun e => h e.symm
        simp [updateCall, findCall, hkj, ih]
      · by_cases hj : k = j <;> simp [updateCall, findCall, hp, hj, ih, h]

/-- Request-store analogue of `findCall_updateCall_self`. -/
theorem findReq_updateReq_self (id : String) (r : MovingRequest)
    (l : List (String × MovingRequest)) :
    findReq id (updateReq id r l) = (findReq id l).map (fun _ => r) := by
  induction l with
  | nil => rfl
  | cons p rest ih =>
      obtain ⟨k, v⟩ := p
      by_cases h : k = id
      · subst h
        simp [updateReq, findReq, ih]
      · simp [updateReq, findReq, h, ih]

/-- `add_transcript_entry` on a known call id: it emits exactly one
file append, stores exactly one more entry under that id, leaves
every other id alone and keeps the storage directory. -/
theorem addTranscriptEntry_known (L : SimpleCallLogger) (id sp tx ts : String)
    (cd : CallData) (h : findCall id L.active_calls = some cd) :
    (addTranscriptEntry L id sp tx ts).2 =
      ([{ path := transcriptFile L.storage_dir id, content := mkLine ts sp tx }], false) ∧
    findCall id (addTranscriptEntry L id sp tx ts).1.active_calls =
      some { cd with
             transcript := cd.transcript ++ [{ speaker := sp, text := tx, timestamp := ts }] } ∧
    (∀ j, j ≠ id → findCall j (addTranscriptEntry L id sp tx ts).1.active_calls =
      findCall j L.active_calls) ∧
    (addTranscriptEntry L id sp tx ts).1.storage_dir = L.storage_dir := by
  refine ⟨?_, ?_, ?_, ?_⟩
  · simp [addTranscriptEntry, h]
  · simp [addTranscriptEntry, h, findCall_updateCall_self]
  · intro j hj
    simp [addTranscriptEntry, h, findCall_updateCall_ne j id _ _ hj]
  · simp [addTranscriptEntry, h]

/-! ## Claim theorems -/

/-- Claim C1, counterexample.  A confirmed interruption (the
echo-suppression test passes, a response is in flight, and
`lastAssistantItemId` is set to "item1" with
`responseStartTimestampMs = 1000` and `latestMediaTimestampMs = 1450`)
produces only the cancel-response and clear messages; no
truncate-at-offset message appears in the output, although the claim
requires one targeting "item1" at offset 450. -/
theorem c1_no_truncate_on_interruption_counterexample :
    sampleResponding.last_assistant_item = some "item1" ∧
    interruptCond sampleResponding 1 = true ∧
    (step sampleResponding (.speechStarted 1)).2 = [.cancelToUpstream, .clearToClient] ∧
    ((step sampleResponding (.speechStarted 1)).2.any OutMsg.isTruncate) = false := by
  refine ⟨rfl, interruptCond_sample, ?_, ?_⟩ <;>
    simp [step, interruptCond_sample, OutMsg.isTruncate]

/-- Claim C1, amended.  On every confirmed interruption the relay
sends exactly a cancel-response control message and a clear message to
the client, and resets `responseStartTimestampMs` to unset (also
clearing `lastAssistantItemId` and the speaking flag); it computes no
elapsed offset and never sends a truncate-at-offset message. -/
theorem c1_interruption_sends_cancel_and_clear_only (s : ConnState) (now : ℚ)
    (h : interruptCond s now = true) :
    step s (.speechStarted now) =
      (interruptedState s, [.cancelToUpstream, .clearToClient]) ∧
    ((step s (.speechStarted now)).2.any OutMsg.isTruncate) = false := by
  constructor <;> simp [step, h, OutMsg.isTruncate, interruptedState]

/-- Witness for the amended claim C1 at the concrete responding
state. -/
theorem c1_interruption_sends_cancel_and_clear_only_witness :
    step sampleResponding (.speechStarted 1) =
      (interruptedState sampleResponding, [.cancelToUpstream, .clearToClient]) :=
  (c1_interruption_sends_cancel_and_clear_only sampleResponding 1 interruptCond_sample).1

/-- Claim C2, counterexample.  A confirmed interruption clears
`lastAssistantItemId`: the state holds "item1" before the
user-speech-started event and `none` after it, so the field is not
left unchanged by the interruption procedure. -/
theorem c2_interruption_clears_item_counterexample :
    sampleResponding.last_assistant_item = some "item1" ∧
    interruptCond sampleResponding 1 = true ∧
    (step sampleResponding (.speechStarted 1)).1.last_assistant_item = none := by
  refine ⟨rfl, interruptCond_sample, ?_⟩
  simp [step, interruptCond_sample]

/-- Claim C2, amended.  The response-completed handler leaves
`lastAssistantItemId` unchanged; the interruption procedure clears it
exactly when the interruption is confirmed; and an audio delta
overwrites it exactly when it carries a truthy item id. -/
theorem c2_last_assistant_item_update_policy (s : ConnState) (now : ℚ)
    (d : String) (i : Option String) :
    (step s .responseDone).1.last_assistant_item = s.last_assistant_item ∧
    (step s (.speechStarted now)).1.last_assistant_item =
      (if interruptCond s now then none else s.last_assistant_item) ∧
    (step s (.audioDelta now d i)).1.last_assistant_item =
      (if truthy i then i else s.last_assistant_item) := by
  refine ⟨rfl, ?_, ?_⟩
  · simp only [step]
    split <;> simp_all
  · simp only [step]
    by_cases ht : truthy i
    · simp only [ht, if_true]
    · simp [ht]
      split <;> rfl

/-- Claim C3.  A user-speech-started event arriving within the guard
window since the last forwarded assistant audio chunk, or while the
client is not recording, or while the assistant is not responding,
triggers no interruption: no message is emitted and the session state
is unchanged. -/
theorem c3_echo_suppression_no_interruption (s : ConnState) (now : ℚ)
    (h : s.client_recording = false ∨ s.assistant_speaking = false ∨
         now - s.last_tts_sent_at ≤ echoWindow) :
    step s (.speechStarted now) = (s, []) := by
  have hc : interruptCond s now = false := by
    unfold interruptCond
    rcases h with h | h | h
    · simp [h]
    · simp [h]
    · simp [decide_eq_false (not_lt.mpr h)]
  simp [step, hc]

/-- Witness for claim C3: a speech-started event at monotonic time 0,
exactly when the last audio chunk was forwarded, is ignored. -/
theorem c3_echo_suppression_no_interruption_witness :
    step sampleResponding (.speechStarted 0) = (sampleResponding, []) := by
  refine c3_echo_suppression_no_interruption sampleResponding 0 (Or.inr (Or.inr ?_))
  show (0:ℚ) - sampleResponding.last_tts_sent_at ≤ echoWindow
  simp [sampleResponding, echoWindow]
  norm_num

/-- Claim C4.  While the turn state is idle (speaking flag unset and
no response start timestamp), a user-speech-started event emits no
message at all, in particular neither a truncate nor a cancel control
message. -/
theorem c4_idle_speech_started_no_control_messages (s : ConnState) (now : ℚ)
    (h : isIdle s) :
    (step s (.speechStarted now)).2 = [] ∧
    ((step s (.speechStarted now)).2.any (fun m => m.isCancel || m.isTruncate)) = false := by
  have hc : interruptCond s now = false := by
    unfold interruptCond
    simp [h.1]
  simp [step, hc]

/-- Witness for claim C4 at the concrete idle state. -/
theorem c4_idle_speech_started_no_control_messages_witness :
    (step sampleIdle (.speechStarted 1)).2 = [] :=
  (c4_idle_speech_started_no_control_messages sampleIdle 1 ⟨rfl, rfl⟩).1

/-- Claim C5.  From an idle state, the first audio delta of a
response records `responseStartTimestampMs = latestMediaTimestampMs`
(and in general an audio delta records it only when it is unset) and
sets the speaking flag; after any non-empty run of audio deltas
followed by a response-completed event the state is idle again with
the response start timestamp unset. -/
theorem c5_response_cycle_returns_idle (s : ConnState) (p : ℚ × String × Option String)
    (ps : List (ℚ × String × Option String)) (h : isIdle s) :
    (step s (mkDelta p)).1.response_start_timestamp = some s.latest_media_timestamp ∧
    (step s (mkDelta p)).1.assistant_speaking = true ∧
    (∀ t : ConnState, (step t (mkDelta p)).1.response_start_timestamp =
        (if t.response_start_timestamp = none then some t.latest_media_timestamp
         else t.response_start_timestamp)) ∧
    isIdle (runState s (((p :: ps).map mkDelta) ++ [.responseDone])) := by
  have hgen : ∀ t : ConnState, (step t (mkDelta p)).1.response_start_timestamp =
      (if t.response_start_timestamp = none then some t.latest_media_timestamp
       else t.response_start_timestamp) := by
    intro t
    simp only [mkDelta, step]
    by_cases hr : t.response_start_timestamp = none <;>
      by_cases ht : truthy p.2.2 <;> simp [hr, ht]
  refine ⟨?_, ?_, hgen, ?_⟩
  · rw [hgen s, if_pos h.2]
  · simp only [mkDelta, step]
    by_cases ht : truthy p.2.2 <;> simp [h.2, ht]
  · have hsplit : runState s (((p :: ps).map mkDelta) ++ [.responseDone]) =
        (step (runState s ((p :: ps).map mkDelta)) .responseDone).1 := by
      simp [runState, List.foldl_append]
    rw [hsplit]
    exact ⟨rfl, rfl⟩

/-- Witness for claim C5: one audio delta then completion, from the
concrete idle state. -/
theorem c5_response_cycle_returns_idle_witness :
    (step sampleIdle (mkDelta (2, "d", some "a"))).1.response_start_timestamp = some 0 ∧
    isIdle (runState sampleIdle ([mkDelta (2, "d", some "a")] ++ [.responseDone])) := by
  have h := c5_response_cycle_returns_idle sampleIdle (2, "d", some "a") [] ⟨rfl, rfl⟩
  exact ⟨h.1, h.2.2.2⟩

/-- Claim C6.  Ending a known call marks the finalized record
completed and evicts the id from the active set; a second invocation
with the same id then returns "Call not found", issues no requests,
finalizes nothing and leaves the logger unchanged. -/
theorem c6_end_call_idempotent_one_shot (L : SimpleCallLogger) (id : String)
    (cd : CallData) (et1 et2 : String) (d1 d2 : ℚ)
    (so1 so2 : SummaryOutcome) (eo1 eo2 : ExtractOutcome)
    (h : findCall id L.active_calls = some cd) :
    ((endCallAndSummarize L id et1 d1 so1 eo1).finalized.map CallData.status) =
      some "completed" ∧
    findCall id (endCallAndSummarize L id et1 d1 so1 eo1).logger.active_calls = none ∧
    endCallAndSummarize (endCallAndSummarize L id et1 d1 so1 eo1).logger id et2 d2 so2 eo2 =
      { logger := (endCallAndSummarize L id et1 d1 so1 eo1).logger,
        summary := "Call not found", requests := [], finalized := none, files := [] } := by
  have hgone :
      findCall id (endCallAndSummarize L id et1 d1 so1 eo1).logger.active_calls = none := by
    simp [endCallAndSummarize, h, findCall_eraseCall]
  refine ⟨?_, hgone, ?_⟩
  · simp [endCallAndSummarize, h]
  · generalize hL : (endCallAndSummarize L id et1 d1 so1 eo1).logger = L1 at hgone ⊢
    simp [endCallAndSummarize, hgone]

/-- Witness for claim C6 on the concrete one-call logger. -/
theorem c6_end_call_idempotent_one_shot_witness :
    findCall "c1"
      (endCallAndSummarize sampleLogger "c1" "e1" 5 .httpError .httpError).logger.active_calls
      = none ∧
    (endCallAndSummarize
      (endCallAndSummarize sampleLogger "c1" "e1" 5 .httpError .httpError).logger
      "c1" "e2" 7 .httpError .httpError).summary = "Call not found" := by
  have h := c6_end_call_idempotent_one_shot sampleLogger "c1" sampleEmptyCall "e1" "e2" 5 7
    .httpError .httpError .httpError .httpError (by decide)
  exact ⟨h.2.1, by rw [h.2.2]⟩

/-- Claim C7.  Ending a call with an empty transcript issues no
completion request, returns the "No conversation recorded."
placeholder and finalizes the all-empty structured extraction; and
requests are only ever issued when the transcript is non-empty. -/
theorem c7_empty_transcript_no_summarization (L : SimpleCallLogger) (id : String)
    (cd : CallData) (et : String) (d : ℚ) (so : SummaryOutcome) (eo : ExtractOutcome)
    (h : findCall id L.active_calls = some cd) :
    (cd.transcript = [] →
      (endCallAndSummarize L id et d so eo).summary = "No conversation recorded." ∧
      (endCallAndSummarize L id et d so eo).requests = [] ∧
      ((endCallAndSummarize L id et d so eo).finalized.map CallData.structured_data) =
        some (some emptyStructured)) ∧
    ((endCallAndSummarize L id et d so eo).requests ≠ [] → cd.transcript ≠ []) := by
  constructor
  · intro hemp
    simp [endCallAndSummarize, h, generateSummary, extractStructured, hemp]
  · intro hreq hemp
    apply hreq
    simp [endCallAndSummarize, h, generateSummary, extractStructured, hemp]

/-- Witness for claim C7 on the concrete empty-transcript call. -/
theorem c7_empty_transcript_no_summarization_witness :
    (endCallAndSummarize sampleLogger "c1" "e1" 5 .httpError .httpError).summary =
      "No conversation recorded." ∧
    (endCallAndSummarize sampleLogger "c1" "e1" 5 .httpError .httpError).requests = [] := by
  have h := c7_empty_transcript_no_summarization sampleLogger "c1" sampleEmptyCall "e1" 5
    .httpError .httpError (by decide)
  have h2 := h.1 (by decide)
  exact ⟨h2.1, h2.2.1⟩

/-- Claim C8.  `add_transcript_entry` with an unknown call id returns
with a logged warning, appends nothing, writes no file and leaves the
logger state unchanged; with a known id it appends exactly one entry
to that call, persists exactly one line immediately, and touches no
other call. -/
theorem c8_add_transcript_entry_unknown_noop (L : SimpleCallLogger) (id sp tx ts : String) :
    (findCall id L.active_calls = none →
      addTranscriptEntry L id sp tx ts = (L, [], true)) ∧
    (∀ cd, findCall id L.active_calls = some cd →
      (addTranscriptEntry L id sp tx ts).2 =
        ([{ path := transcriptFile L.storage_dir id, content := mkLine ts sp tx }], false) ∧
      findCall id (addTranscriptEntry L id sp tx ts).1.active_calls =
        some { cd with
               transcript := cd.transcript ++ [{ speaker := sp, text := tx, timestamp := ts }] } ∧
      (∀ j, j ≠ id → findCall j (addTranscriptEntry L id sp tx ts).1.active_calls =
        findCall j L.active_calls)) := by
  constructor
  · intro h
    simp [addTranscriptEntry, h]
  · intro cd h
    have hk := addTranscriptEntry_known L id sp tx ts cd h
    exact ⟨hk.1, hk.2.1, hk.2.2.1⟩

/-- Witness for claim C8: an unknown id is a no-op, and a known id
appends the one entry and one persisted line. -/
theorem c8_add_transcript_entry_unknown_noop_witness :
    addTranscriptEntry sampleLogger "zz" "user" "hi" "t0" = (sampleLogger, [], true) ∧
    (addTranscriptEntry sampleLogger "c1" "user" "hi" "t0").2 =
      ([{ path := transcriptFile "call_log" "c1", content := mkLine "t0" "user" "hi" }],
       false) ∧
    findCall "c1" (addTranscriptEntry sampleLogger "c1" "user" "hi" "t0").1.active_calls =
      some { sampleEmptyCall with
             transcript := [{ speaker := "user", text := "hi", timestamp := "t0" }] } := by
  have h1 := (c8_add_transcript_entry_unknown_noop sampleLogger "zz" "user" "hi" "t0").1
    (by decide)
  have h2 := (c8_add_transcript_entry_unknown_noop sampleLogger "c1" "user" "hi" "t0").2
    sampleEmptyCall (by decide)
  exact ⟨h1, h2.1, h2.2.1⟩

/-- Claim C9.  For any sequence of `add_transcript_entry` calls on a
known call, the in-memory transcript afterwards is the previous
transcript followed by exactly the new entries in invocation order
(so it is append-only), and the lines persisted to the transcript
file are exactly those entries, in the same order. -/
theorem c9_transcript_order_preserved (calls : List (String × String × String))
    (L : SimpleCallLogger) (id : String) (cd : CallData)
    (h : findCall id L.active_calls = some cd) :
    findCall id (runAppends L id calls).1.active_calls =
      some { cd with transcript := cd.transcript ++ calls.map mkEntry } ∧
    (runAppends L id calls).2 =
      calls.map (fun c => { path := transcriptFile L.storage_dir id,
                            content := mkLine c.2.2 c.1 c.2.1 }) := by
  induction calls generalizing L cd with
  | nil => simp [runAppends, h]
  | cons c rest ih =>
      obtain ⟨sp, tx, ts⟩ := c
      have hknown := addTranscriptEntry_known L id sp tx ts cd h
      have hrec := ih (addTranscriptEntry L id sp tx ts).1
        { cd with transcript := cd.transcript ++ [{ speaker := sp, text := tx, timestamp := ts }] }
        hknown.2.1
      have hunfold : runAppends L id ((sp, tx, ts) :: rest) =
          ((runAppends (addTranscriptEntry L id sp tx ts).1 id rest).1,
           (addTranscriptEntry L id sp tx ts).2.1 ++
             (runAppends (addTranscriptEntry L id sp tx ts).1 id rest).2) := rfl
      constructor
      · rw [hunfold]
        rw [hrec.1]
        simp [mkEntry, List.append_assoc]
      · rw [hunfold]
        have hsd : (addTranscriptEntry L id sp tx ts).1.storage_dir = L.storage_dir :=
          hknown.2.2.2
        rw [hrec.2, hsd]
        have hw : (addTranscriptEntry L id sp tx ts).2.1 =
            [{ path := transcriptFile L.storage_dir id, content := mkLine ts sp tx }] :=
          congrArg Prod.fst hknown.1
        rw [hw]
        simp

/-- Witness for claim C9: two appends on the concrete logger give the
two entries and the two persisted lines in order. -/
theorem c9_transcript_order_preserved_witness :
    findCall "c1"
      (runAppends sampleLogger "c1"
        [("user", "hi", "t1"), ("assistant", "yo", "t2")]).1.active_calls =
      some { sampleEmptyCall with
             transcript := [{ speaker := "user", text := "hi", timestamp := "t1" },
                            { speaker := "assistant", text := "yo", timestamp := "t2" }] } ∧
    (runAppends sampleLogger "c1" [("user", "hi", "t1"), ("assistant", "yo", "t2")]).2 =
      [{ path := "call_log/c1_transcript.txt", content := "[t1] USER: hi\n" },
       { path := "call_log/c1_transcript.txt", content := "[t2] ASSISTANT: yo\n" }] := by
  have h := c9_transcript_order_preserved [("user", "hi", "t1"), ("assistant", "yo", "t2")]
    sampleLogger "c1" sampleEmptyCall (by decide)
  refine ⟨by rw [h.1]; decide, by rw [h.2]; decide⟩

/-- Claim C10, counterexample.  On floors "st1" and "1" the code sets
`needs_lift = false`: the chained replacements turn "st1" into "1"
(the substring "st" is removed although it is not a suffix), while
the claim, which only strips ordinal suffixes, would fail to parse
"st1" and therefore demands `needs_lift = true`. -/
theorem c10_suffix_vs_substring_counterexample :
    needsLiftCalc "st1" "1" = false ∧
    claimNeedsLift "st1" "1" = true ∧
    (saveFloors sampleAgent "r1" "st1" "1").2 = true ∧
    findReq "r1" (saveFloors sampleAgent "r1" "st1" "1").1.active_requests =
      some { sampleRequest with
             from_floor := some "st1", to_floor := some "1", needs_lift := some false } := by
  decide

/-- Claim C10, amended.  For a known request id, `save_floors` records
both floor strings and sets `needs_lift` to the value computed after
removing every occurrence of the substrings "st", "nd", "rd", "th"
(in that order) from each string: `needs_lift` is false exactly when
both stripped strings parse as integers that are at most 1, and true
otherwise (in particular on any parse failure); for an unknown id it
returns false and changes no request. -/
theorem c10_save_floors_needs_lift (A : MovingAgent) (id ff tf : String) :
    (findReq id A.active_requests = none → saveFloors A id ff tf = (A, false)) ∧
    (∀ r, findReq id A.active_requests = some r →
      (saveFloors A id ff tf).2 = true ∧
      findReq id (saveFloors A id ff tf).1.active_requests =
        some { r with from_floor := some ff, to_floor := some tf,
                      needs_lift := some (needsLiftCalc ff tf) } ∧
      (needsLiftCalc ff tf = false ↔
        ∃ a b : Int, pyToInt (stripOrdinals ff) = some a ∧
          pyToInt (stripOrdinals tf) = some b ∧ a ≤ 1 ∧ b ≤ 1)) := by
  constructor
  · intro h
    simp [saveFloors, h]
  · intro r h
    refine ⟨by simp [saveFloors, h], by simp [saveFloors, h, findReq_updateReq_self], ?_⟩
    unfold needsLiftCalc
    rcases hf : pyToInt (stripOrdinals ff) with _ | a <;>
      rcases hg : pyToInt (stripOrdinals tf) with _ | b <;>
        simp [hf, hg, not_lt]

/-- Witness for the amended claim C10: floors "2" and "1" on the
concrete store set `needs_lift` to true, and an unknown id changes
nothing. -/
theorem c10_save_floors_needs_lift_witness :
    (saveFloors sampleAgent "r1" "2" "1").2 = true ∧
    findReq "r1" (saveFloors sampleAgent "r1" "2" "1").1.active_requests =
      some { sampleRequest with
             from_floor := some "2", to_floor := some "1", needs_lift := some true } ∧
    saveFloors sampleAgent "zz" "2" "1" = (sampleAgent, false) := by
  have h := (c10_save_floors_needs_lift sampleAgent "r1" "2" "1").2 sampleRequest (by decide)
  have h0 := (c10_save_floors_needs_lift sampleAgent "zz" "2" "1").1 (by decide)
  refine ⟨h.1, by rw [h.2.1]; decide, h0⟩

end SpeechAssistant
